import Mathlib

/-!
Verification development for the notebook
`EXC10-Test1-FOM_Newton_optimal_parameter_computation.ipynb`
(repository NCD-corrected-TR-RB-approach-for-pde-opt).

The notebook is orchestration glue around the repository package pdeopt:
it builds a parametrized elliptic PDE problem from bitmap masks,
discretizes it, samples a starting parameter, runs a full-order Newton
optimization and reports the results.  We embed

  * the parameter-vector data model (groups walls / windows / doors /
    heaters, box bounds passed to set_input_dict),
  * the concrete parameter vectors appearing in the notebook (the seeded
    random start, the hand-edited visualization vector vis_mu, and the
    optimizer iterates recorded in the notebook output cells),
  * the notebook itself as a sequence of statements (a small syntactic
    model capturing assignments, in-place element assignments, calls,
    reads of variables, control flow and file-system effects),

and prove the specification claims over these definitions.
-/

namespace EXC10

/-- A parameter vector of the notebook: the flat vector mu partitioned
into the named physical groups walls, windows, doors and heaters, each a
list of rational coefficients.  In the notebook the group sizes are fixed
by parametric_quantities: 3 walls, 0 windows, 0 doors, 7 heaters. -/
structure Mu where
  walls : List ℚ
  windows : List ℚ
  doors : List ℚ
  heaters : List ℚ
deriving DecidableEq, Repr

/-- The parametric quantities chosen in the notebook:
parametric_quantities has walls [1,4,9], windows [], doors [],
heaters [1,3,5,6,7,8,9]. -/
def parametric_quantities_walls : List Nat := [1, 4, 9]

def parametric_quantities_windows : List Nat := []

def parametric_quantities_doors : List Nat := []

def parametric_quantities_heaters : List Nat := [1, 3, 5, 6, 7, 8, 9]

/-- Lower bound for wall coefficients, from set_input_dict argument
owc = iwc = [0.025, 0.1]. -/
def wallLow : ℚ := 0.025

/-- Upper bound for wall coefficients, from set_input_dict argument
owc = iwc = [0.025, 0.1]. -/
def wallHigh : ℚ := 0.1

/-- Lower bound for heater coefficients, from set_input_dict argument
ht = [0, 100]. -/
def heaterLow : ℚ := 0

/-- Upper bound for heater coefficients, from set_input_dict argument
ht = [0, 100]. -/
def heaterHigh : ℚ := 100

/-- A parameter vector respects the parameter-space box bounds passed to
set_input_dict: walls in [0.025, 0.1], heaters in [0, 100]. -/
def muInBox (m : Mu) : Bool :=
  m.walls.all (fun x => decide (wallLow ≤ x) && decide (x ≤ wallHigh)) &&
  m.heaters.all (fun x => decide (heaterLow ≤ x) && decide (x ≤ heaterHigh))

/-- A parameter vector has the group sizes fixed by
parametric_quantities (3 walls, 0 windows, 0 doors, 7 heaters). -/
def muWellFormed (m : Mu) : Bool :=
  (m.walls.length == parametric_quantities_walls.length) &&
  (m.windows.length == parametric_quantities_windows.length) &&
  (m.doors.length == parametric_quantities_doors.length) &&
  (m.heaters.length == parametric_quantities_heaters.length)

/-- All coefficients of a parameter vector are strictly positive. -/
def muAllPos (m : Mu) : Bool :=
  (m.walls ++ m.windows ++ m.doors ++ m.heaters).all (fun x => decide (0 < x))

/-- All coefficients of a parameter vector are non-negative. -/
def muAllNonneg (m : Mu) : Bool :=
  (m.walls ++ m.windows ++ m.doors ++ m.heaters).all (fun x => decide (0 ≤ x))

/-- The starting parameter sampled in the notebook by
problem.parameter_space.sample_randomly(1, seed=1)[0], with the values
the notebook prints. -/
def muStart : Mu :=
  ⟨[0.05091705452822859, 0.05475756056730025, 0.06541125505025178],
   [], [],
   [41.7022004702574, 72.0324493442158, 0.011437481734488664,
    30.233257263183976, 14.675589081711305, 9.233859476879779,
    18.62602113776709]⟩

/-- The visualization parameter vis_mu after the ten in-place element
assignments the notebook performs on it (walls[0]=0.35, walls[1]=0.2,
walls[2]=0.0001, heaters[0..6]=30,40,50,60,70,80,90). -/
def vis_mu : Mu :=
  ⟨[0.35, 0.2, 0.0001], [], [], [30, 40, 50, 60, 70, 80, 90]⟩

/-- Flat parameter vectors, as used by parse_parameter_inverse and by the
iterates the solver prints: the 7 heater coefficients followed by the 3
wall coefficients. -/
def flatInBox (v : List ℚ) : Bool :=
  (v.take 7).all (fun x => decide (heaterLow ≤ x) && decide (x ≤ heaterHigh)) &&
  (v.drop 7).all (fun x => decide (wallLow ≤ x) && decide (x ≤ wallHigh))

/-- All entries of a flat parameter vector are strictly positive. -/
def flatAllPos (v : List ℚ) : Bool := v.all (fun x => decide (0 < x))

/-- All entries of a flat parameter vector are non-negative. -/
def flatAllNonneg (v : List ℚ) : Bool := v.all (fun x => decide (0 ≤ x))

/-- The flat form of the starting parameter, as the notebook prints it
(Starting parameter: heaters then walls). -/
def muStartFlat : List ℚ :=
  [41.7022004702574, 72.0324493442158, 0.011437481734488664,
   30.233257263183976, 14.675589081711305, 9.233859476879779,
   18.62602113776709,
   0.05091705452822859, 0.05475756056730025, 0.06541125505025178]

/-- Modelled from the spec: the iterate list mus_1 returned by
solve_optimization_NewtonMethod lives in the repository package pdeopt,
which is not under src; the iterates below are the six step vectors the
call records in the notebook output cell (each a flat vector of 7 heater
then 3 wall coefficients), the last of which the notebook prints again to
twelve digits as mus_1[-1]. -/
def mus_1 : List (List ℚ) :=
  [[28.5904420, 58.5622807, 0, 23.3556820, 7.57377500, 2.03159762, 0,
    0.025, 0.025, 0.025],
   [28.015539, 28.69083877, 0.09879301, 29.51555641, 30.42519391,
    30.94807228, 0.38696257, 0.1, 0.1, 0.04595768],
   [16.63884255, 16.98044618, 17.27428522, 17.37332441, 17.90079958,
    18.09332588, 17.00230683, 0.04445708, 0.1, 0.025],
   [16.49460499, 16.91668327, 17.32719028, 17.48225557, 18.11977136,
    18.31858072, 16.97675542, 0.025, 0.07365179, 0.025],
   [16.52117948, 16.9282115, 17.32112814, 17.46592787, 18.11574119,
    18.39759481, 16.94009947, 0.025, 0.025, 0.025],
   [16.51891986, 16.92820878, 17.32387911, 17.46951228, 18.12299797,
    18.40759241, 16.93448658, 0.025, 0.025, 0.025]]

/-- Modelled from the spec: the functional values Js_1 returned by
solve_optimization_NewtonMethod (pdeopt is not under src); these are the
six values the call records in the notebook output cell, one per step. -/
def Js_1 : List ℚ :=
  [5.663654308707237, 4.0088310055441525, 2.7750661310421947,
   2.773607887631215, 2.772773406164333, 2.7727731849149677]

/-- The starting functional value J_start = output_functional_hat(mu),
as the notebook prints it. -/
def J_start : ℚ := 501.30528547701397

/-- A list of rationals is non-increasing. -/
def nonincreasing : List ℚ → Bool
  | [] => true
  | [_] => true
  | a :: b :: t => decide (b ≤ a) && nonincreasing (b :: t)

/-- A file-system effect performed by a notebook statement: a read or a
write of the file at the given path. -/
inductive Eff where
  | read : String → Eff
  | write : String → Eff
deriving DecidableEq, Repr

/-- A non-compound Python statement of the notebook: an assignment
(target, variables read, functions called, file-system effects), an
in-place element assignment obj[key][idx] = value (or obj[key] = value
for dictionary entries), a bare call expression, or a print statement. -/
inductive LStmt where
  | assign (target : String) (reads : List String) (calls : List String)
      (effects : List Eff)
  | elemAssign (obj key : String) (idx : Nat)
  | exprCall (fn : String) (reads : List String) (effects : List Eff)
  | printCall (reads : List String)
deriving DecidableEq, Repr

/-- A top-level Python statement of the notebook: a simple statement, an
import, a for loop, an if statement, or a try/except block.  The
notebook nests no control flow inside control flow, so compound bodies
hold simple statements. -/
inductive Stmt where
  | leaf (s : LStmt)
  | importStmt (modname : String)
  | forLoop (v : String) (reads : List String) (body : List LStmt)
  | ifStmt (cond : String) (condReads : List String)
      (thenBranch elseBranch : List LStmt)
  | tryExcept (body handler : List LStmt)

/-- Shorthand: assignment with no calls and no effects. -/
def asg (t : String) (rs : List String) : Stmt := .leaf (.assign t rs [] [])

/-- Shorthand: assignment whose right-hand side calls functions. -/
def asgc (t : String) (rs cs : List String) : Stmt := .leaf (.assign t rs cs [])

/-- Shorthand: assignment with calls and file-system effects. -/
def asge (t : String) (rs cs : List String) (es : List Eff) : Stmt :=
  .leaf (.assign t rs cs es)

/-- Shorthand: in-place element assignment. -/
def eset (o k : String) (i : Nat) : Stmt := .leaf (.elemAssign o k i)

/-- Shorthand: bare call expression with no effects. -/
def callS (f : String) (rs : List String) : Stmt := .leaf (.exprCall f rs [])

/-- Shorthand: print statement. -/
def pr (rs : List String) : Stmt := .leaf (.printCall rs)

/-- Shorthand: import statement. -/
def imp (m : String) : Stmt := .importStmt m

/-- The notebook, code cell by code cell, as the sequence of its
top-level statements with, for each statement, the variables it reads,
the functions it calls and the file-system effects it performs.  The
read effect attached to the EXC_problem call stands for the PNG bitmap
mask files it loads from data_path (the problem factory itself lives in
pdeopt, outside src). -/
def notebookStmts : List Stmt :=
  [ -- cell importing sys, numpy, matplotlib, pymor
   imp "sys",
   asg "path" [],
   callS "sys.path.append" ["sys", "path"],
   imp "numpy",
   imp "matplotlib.pyplot",
   imp "pymor.basic",
   callS "set_log_levels" [],
   -- cell configuring logging and matplotlib, loading the domain mask
   imp "pymor.core.logger",
   callS "set_log_levels" [],
   asgc "logger" [] ["getLogger"],
   imp "matplotlib",
   eset "mpl.rcParams" "figure.figsize" 0,
   eset "mpl.rcParams" "font.size" 0,
   eset "mpl.rcParams" "savefig.dpi" 0,
   asg "data_path" [],
   asg "bounding_box" [],
   asge "domain_of_interest" ["data_path", "bounding_box"]
     ["BitmapFunction"] [.read "../../../EXC_data/Domain_of_interest.png"],
   -- cell building the problem and the discretization
   imp "pdeopt.problems",
   imp "pdeopt.discretizer",
   asg "parametric_quantities" [],
   asg "inactive_quantities" [],
   asg "summed_quantities" [],
   asg "coefficient_expressions" [],
   asg "parameters_in_q" [],
   asgc "input_dict"
     ["parametric_quantities", "inactive_quantities",
      "coefficient_expressions", "summed_quantities", "parameters_in_q"]
     ["set_input_dict"],
   asg "parameter_scaling" [],
   asg "u_out" [],
   asge "problem, parameter_scales"
     ["input_dict", "summed_quantities", "u_out", "data_path",
      "parameters_in_q", "parameter_scaling", "coefficient_expressions"]
     ["EXC_problem"] [.read "../../../EXC_data/affine_component_masks.png"],
   asg "u_d" [],
   asg "mu_d" [],
   asg "sigma_d" [],
   asg "weights" ["sigma_d"],
   asgc "diameter" [] ["np.sqrt"],
   asgc "opt_fom, data, mu_bar"
     ["problem", "diameter", "weights", "parameter_scales",
      "domain_of_interest", "u_d", "mu_d", "parameters_in_q"]
     ["discretize_quadratic_pdeopt_stationary_cg"],
   -- cell printing grid information and setting optimizer constants
   pr [],
   pr ["data"],
   asg "radius" [],
   asg "FOC_tolerance" [],
   asg "max_it" [],
   asg "max_it_arm" [],
   asg "init_step_armijo" [],
   asg "armijo_alpha" [],
   asg "epsilon_i" [],
   -- cell sampling the starting parameter (seed 1)
   asgc "mu" ["problem"] ["parameter_space.sample_randomly"],
   pr ["mu"],
   -- cell sampling vis_mu (seed 13), editing it and visualizing data
   imp "pymor.discretizers.builtin.cg",
   asgc "vis_mu" ["problem"] ["parameter_space.sample_randomly"],
   eset "vis_mu" "walls" 0,
   eset "vis_mu" "walls" 1,
   eset "vis_mu" "walls" 2,
   eset "vis_mu" "heaters" 0,
   eset "vis_mu" "heaters" 1,
   eset "vis_mu" "heaters" 2,
   eset "vis_mu" "heaters" 3,
   eset "vis_mu" "heaters" 4,
   eset "vis_mu" "heaters" 5,
   eset "vis_mu" "heaters" 6,
   asgc "diff" ["data", "problem", "vis_mu"]
     ["InterpolationOperator", "as_vector"],
   asgc "rhs" ["data", "problem", "vis_mu"]
     ["InterpolationOperator", "as_vector"],
   asgc "doI" ["data", "domain_of_interest", "vis_mu"]
     ["InterpolationOperator", "as_vector"],
   callS "opt_fom.visualize" ["opt_fom", "diff"],
   .leaf (.exprCall "plt.savefig" ["plt"] [.write "ciao.pdf"]),
   callS "opt_fom.visualize" ["opt_fom", "rhs"],
   callS "opt_fom.visualize" ["opt_fom", "doI"],
   -- cell solving and visualizing primal and dual solutions
   asgc "u" ["opt_fom", "mu"] ["opt_fom.solve"],
   asgc "p" ["opt_fom", "mu"] ["opt_fom.solve_dual"],
   callS "opt_fom.visualize" ["opt_fom", "u"],
   callS "opt_fom.visualize" ["opt_fom", "p"],
   -- cell printing the starting parameter and starting functional value
   pr ["opt_fom", "mu"],
   asgc "J_start" ["opt_fom", "mu"] ["opt_fom.output_functional_hat"],
   pr ["J_start"],
   -- cell running the full-order Newton optimization
   imp "pdeopt.TR",
   imp "pdeopt.tools",
   asg "TR_parameters"
     ["FOC_tolerance", "max_it", "mu", "epsilon_i", "max_it_arm",
      "init_step_armijo", "armijo_alpha"],
   asgc "muoptfom, _, _, _, times_1, mus_1, Js_1, FOC_1"
     ["opt_fom", "mu", "TR_parameters"]
     ["solve_optimization_NewtonMethod"],
   -- cell reporting the optimal parameter and visualizing its solution
   .forLoop "i" ["mus_1"] [.printCall ["mus_1", "i"]],
   asgc "u" ["opt_fom", "mus_1"]
     ["opt_fom.solve", "opt_fom.pre_parse_parameter"],
   callS "opt_fom.visualize" ["opt_fom", "u"],
   -- cell computing the misfit of the optimal solution
   imp "pymor.discretizers.builtin.cg",
   imp "pymor.discretizers.builtin.grids.referenceelements",
   imp "pymor.discretizers.builtin.grids.boundaryinfos",
   .ifStmt "data.grid.reference_element is square" ["data", "square"]
     [.assign "L2_OP" ["L2ProductQ1"] [] []]
     [.assign "L2_OP" ["L2ProductP1"] [] []],
   .ifStmt "mu_d is None" ["mu_d"]
     [.assign "empty_bi" ["data"] ["EmptyBoundaryInfo"] [],
      .assign "u_d" ["data", "u_d"]
        ["InterpolationOperator", "ConstantFunction", "as_vector"] [],
      .assign "diff" ["u", "u_d"] [] [],
      .assign "diff_" ["opt_fom", "diff"]
        ["opt_fom.solution_space.from_numpy"] [],
      .assign "Restricted_L2_OP"
        ["L2_OP", "data", "empty_bi", "domain_of_interest"] ["L2_OP"] [],
      .printCall ["Restricted_L2_OP", "diff_"],
      .printCall ["Restricted_L2_OP", "diff_", "u_d"]]
     []]

/-- Variables read by a simple statement (an element assignment reads the
object it mutates). -/
def lstmtReads : LStmt → List String
  | .assign _ rs _ _ => rs
  | .elemAssign o _ _ => [o]
  | .exprCall _ rs _ => rs
  | .printCall rs => rs

/-- Variables read by a top-level statement, bodies included. -/
def stmtReads : Stmt → List String
  | .leaf s => lstmtReads s
  | .importStmt _ => []
  | .forLoop _ rs body => rs ++ (body.map lstmtReads).flatten
  | .ifStmt _ crs t e => crs ++ ((t ++ e).map lstmtReads).flatten
  | .tryExcept b h => ((b ++ h).map lstmtReads).flatten

/-- File-system effects of a simple statement. -/
def lstmtEffects : LStmt → List Eff
  | .assign _ _ _ es => es
  | .exprCall _ _ es => es
  | _ => []

/-- File-system effects of a top-level statement, bodies included. -/
def stmtEffects : Stmt → List Eff
  | .leaf s => lstmtEffects s
  | .importStmt _ => []
  | .forLoop _ _ body => (body.map lstmtEffects).flatten
  | .ifStmt _ _ t e => ((t ++ e).map lstmtEffects).flatten
  | .tryExcept b h => ((b ++ h).map lstmtEffects).flatten

/-- Functions called by a simple statement. -/
def lstmtCalls : LStmt → List String
  | .assign _ _ cs _ => cs
  | .exprCall f _ _ => [f]
  | _ => []

/-- Functions called by a top-level statement, bodies included. -/
def stmtCalls : Stmt → List String
  | .leaf s => lstmtCalls s
  | .importStmt _ => []
  | .forLoop _ _ body => (body.map lstmtCalls).flatten
  | .ifStmt _ _ t e => ((t ++ e).map lstmtCalls).flatten
  | .tryExcept b h => ((b ++ h).map lstmtCalls).flatten

/-- The statement is a for loop. -/
def isForLoop : Stmt → Bool
  | .forLoop .. => true
  | _ => false

/-- The statement is an if statement. -/
def isIfStmt : Stmt → Bool
  | .ifStmt .. => true
  | _ => false

/-- The statement is a try/except block. -/
def isTryExcept : Stmt → Bool
  | .tryExcept .. => true
  | _ => false

/-- The statement is control flow: a for loop, an if statement or a
try/except block. -/
def isControlFlow (s : Stmt) : Bool :=
  isForLoop s || isIfStmt s || isTryExcept s

/-- Objects targeted by the in-place element assignments of a simple
statement. -/
def lstmtElemAssignObjs : LStmt → List String
  | .elemAssign o _ _ => [o]
  | _ => []

/-- Objects targeted by the in-place element assignments of a top-level
statement, bodies included. -/
def stmtElemAssignObjs : Stmt → List String
  | .leaf s => lstmtElemAssignObjs s
  | .importStmt _ => []
  | .forLoop _ _ body => (body.map lstmtElemAssignObjs).flatten
  | .ifStmt _ _ t e => ((t ++ e).map lstmtElemAssignObjs).flatten
  | .tryExcept b h => ((b ++ h).map lstmtElemAssignObjs).flatten

/-- All objects mutated in place by element assignment, program order. -/
def elemAssignObjs (p : List Stmt) : List String :=
  (p.map stmtElemAssignObjs).flatten

/-- All file-system effects of a statement list, program order. -/
def allEffects (p : List Stmt) : List Eff :=
  (p.map stmtEffects).flatten

/-- The program contains a try/except block. -/
def hasTryExcept (p : List Stmt) : Bool := p.any isTryExcept

/-- Variables read by the condition of an if statement. -/
def ifCondReads : Stmt → List String
  | .ifStmt _ crs _ _ => crs
  | _ => []

/-- Some if condition in the program reads one of the given variables. -/
def branchesOn (p : List Stmt) (vars : List String) : Bool :=
  p.any (fun s => (ifCondReads s).any (fun v => vars.contains v))

/-- The names the solver call binds its returned tuple to. -/
def solverOutputs : List String :=
  ["muoptfom", "times_1", "mus_1", "Js_1", "FOC_1"]

/-- The statement reads the given variable (bodies included). -/
def readsVar (s : Stmt) (v : String) : Bool := (stmtReads s).contains v

/-- Index of the first statement calling the given function. -/
def firstIdxCalling (p : List Stmt) (f : String) : Nat :=
  p.findIdx (fun s => (stmtCalls s).contains f)

/-- The string ends with the given suffix (on the character lists, so
that it evaluates by kernel reduction). -/
def strEndsWith (s t : String) : Bool :=
  s.data.reverse.take t.data.length == t.data.reverse

/-- The effect is a read of a .png file. -/
def isPngRead : Eff → Bool
  | .read p => strEndsWith p ".png"
  | _ => false

/-- The effect is a write of a .pdf file. -/
def isPdfWrite : Eff → Bool
  | .write p => strEndsWith p ".pdf"
  | _ => false

/-- Last element of a list, with a default. -/
def lastD {α : Type} : List α → α → α
  | [], d => d
  | [a], _ => a
  | _ :: b :: t, d => lastD (b :: t) d

/-- The final parameter returned by the optimization, muoptfom: the last
element of mus_1. -/
def muoptfom : List ℚ := lastD mus_1 []

/-- Modelled from the spec: the pseudo-random number generator behind
pymor's parameter_space.sample_randomly (pymor and pdeopt are not under
src), as a deterministic function of the state it is seeded with. -/
def pseudoDraw (s : Nat) : Mu :=
  ⟨(List.range 3).map (fun i => wallLow + (((s + i) % 76 : ℕ) : ℚ) / 1000),
   [], [],
   (List.range 7).map (fun i => (((s * (i + 1)) % 101 : ℕ) : ℚ))⟩

/-- Modelled from the spec: parameter_space.sample_randomly (pymor and
pdeopt are not under src).  A call with a seed is a deterministic
function of that seed; a call without a seed draws from the ambient
global random state instead. -/
def sample_randomly (ambientState : Nat) (seed : Option Nat) : Mu :=
  pseudoDraw (seed.getD ambientState)

/-- The seeds the notebook passes to its two sample_randomly calls:
seed=1 for the starting parameter mu, seed=13 for vis_mu. -/
def notebookSampleSeeds : List (Option Nat) := [some 1, some 13]

/-- The starting parameter as the notebook samples it, as a function of
the ambient random state: sample_randomly(1, seed=1)[0]. -/
def sampledStartingParameter (ambientState : Nat) : Mu :=
  sample_randomly ambientState (some 1)

/-- The visualization parameter as the notebook samples it, as a
function of the ambient random state: sample_randomly(1, seed=13)[0]. -/
def sampledVisParameter (ambientState : Nat) : Mu :=
  sample_randomly ambientState (some 13)

/-- The starting functional value J_start = output_functional_hat(mu),
as a function of the functional and of the ambient random state. -/
def startingFunctionalValue (J : Mu → ℚ) (ambientState : Nat) : ℚ :=
  J (sampledStartingParameter ambientState)

/-- The optimizer constants set in the notebook cell after the grid
printout. -/
def radius : ℚ := 0.1

def FOC_tolerance : ℚ := 1e-12

def max_it : Nat := 400

def max_it_arm : Nat := 50

def init_step_armijo : ℚ := 0.5

def armijo_alpha : ℚ := 1e-4

def epsilon_i : ℚ := 1e-8

/-- The dictionary TR_parameters the notebook passes to
solve_optimization_NewtonMethod. -/
structure TRParams where
  radius : ℚ
  sub_tolerance : ℚ
  max_iterations : Nat
  starting_parameter : Mu
  epsilon_i : ℚ
  max_iterations_armijo : Nat
  initial_step_armijo : ℚ
  armijo_alpha : ℚ
  full_order_model : Bool

/-- The TR_parameters dictionary literal from the optimization cell:
radius 1.e18, sub_tolerance FOC_tolerance, max_iterations max_it,
starting_parameter mu, epsilon_i, max_iterations_armijo max_it_arm,
initial_step_armijo init_step_armijo, armijo_alpha, and
full_order_model True. -/
def TR_parameters : TRParams :=
  ⟨1e18, FOC_tolerance, max_it, muStart, epsilon_i, max_it_arm,
   init_step_armijo, armijo_alpha, true⟩

/-- C1, counterexample.  The claim fails on vis_mu, a parameter vector
appearing in the notebook: the notebook mutates it in place after
sampling (its name is among the element-assignment targets), and its
entries lie outside the box bounds passed to set_input_dict
(walls[0] = 0.35 is not in [0.025, 0.1]). -/
theorem C1_counterexample :
    muInBox vis_mu = false ∧
    (elemAssignObjs notebookStmts).contains "vis_mu" = true := by
  refine ⟨?_, by decide⟩
  norm_num [muInBox, vis_mu, wallLow, wallHigh, heaterLow, heaterHigh]

/-- C1, amended.  The starting parameter mu and every iterate produced
by the optimizer lie inside the box bounds passed to set_input_dict
(walls in [0.025, 0.1], heaters in [0, 100]) and are not mutated: no
in-place element assignment of the notebook targets mu, mus_1 or
muoptfom.  The exception is vis_mu, which the notebook mutates in place
with ten element assignments after sampling it, taking it outside the
box. -/
theorem C1_box_bounds_except_vis_mu :
    muInBox muStart = true ∧
    (muStartFlat :: mus_1).all flatInBox = true ∧
    (elemAssignObjs notebookStmts).contains "mu" = false ∧
    (elemAssignObjs notebookStmts).contains "mus_1" = false ∧
    (elemAssignObjs notebookStmts).contains "muoptfom" = false ∧
    (elemAssignObjs notebookStmts).count "vis_mu" = 10 ∧
    muInBox vis_mu = false := by
  refine ⟨?_, ?_, by decide, by decide, by decide, by decide, ?_⟩
  · norm_num [muInBox, muStart, wallLow, wallHigh, heaterLow, heaterHigh]
  · norm_num [muStartFlat, mus_1, flatInBox, wallLow, wallHigh,
      heaterLow, heaterHigh]
  · norm_num [muInBox, vis_mu, wallLow, wallHigh, heaterLow, heaterHigh]

/-- C2.  The optimization run recorded for the
solve_optimization_NewtonMethod call minimizes the tracking functional
under the box constraints: every element of mus_1, the starting
parameter and the final iterate muoptfom included, satisfies the box
bounds (walls in [0.025, 0.1], heaters in [0, 100]); the functional
values Js_1 are non-increasing, also when prepended with the starting
value J_start; and the final value is no greater than J_start. -/
theorem C2_solver_respects_box_and_decreases_J :
    (muStartFlat :: mus_1).all flatInBox = true ∧
    flatInBox muoptfom = true ∧
    nonincreasing (J_start :: Js_1) = true ∧
    lastD Js_1 J_start ≤ J_start := by
  refine ⟨?_, ?_, ?_, ?_⟩
  · norm_num [muStartFlat, mus_1, flatInBox, wallLow, wallHigh,
      heaterLow, heaterHigh]
  · norm_num [muoptfom, lastD, mus_1, flatInBox, wallLow, wallHigh,
      heaterLow, heaterHigh]
  · norm_num [nonincreasing, J_start, Js_1]
  · norm_num [lastD, J_start, Js_1]

/-- C3, counterexample.  The claim fails on the first optimizer iterate,
a parameter vector printed in the notebook: its third and seventh heater
coefficients are exactly 0, so not every coefficient of every parameter
vector in the notebook is strictly positive. -/
theorem C3_counterexample : flatAllPos mus_1.headI = false := by
  norm_num [flatAllPos, mus_1, List.headI]

/-- C3, amended.  Every parameter vector in the notebook is partitioned
into the named groups walls, windows, doors and heaters with the group
sizes of parametric_quantities, and every coefficient of every such
vector is non-negative; the sampled vectors mu and vis_mu are in fact
strictly positive, but optimizer iterates touch the heater lower bound
0, so strict positivity fails for them. -/
theorem C3_groups_and_nonnegativity :
    muWellFormed muStart = true ∧
    muWellFormed vis_mu = true ∧
    muAllPos muStart = true ∧
    muAllPos vis_mu = true ∧
    (muStartFlat :: mus_1).all flatAllNonneg = true := by
  refine ⟨by decide, by decide, ?_, ?_, ?_⟩
  · norm_num [muAllPos, muStart]
  · norm_num [muAllPos, vis_mu]
  · norm_num [muStartFlat, mus_1, flatAllNonneg]

/-- C4, counterexample.  The notebook does author control flow: its
statement sequence contains a for loop and if statements. -/
theorem C4_counterexample : notebookStmts.any isControlFlow = true := by
  decide

/-- C4, amended.  The notebook authors exactly three control-flow
statements: one for loop (printing the final parameter entries) and two
if statements (selecting the L2 product for the reference element and
testing mu_d is None); it contains no try/except, and every other
statement is a simple straight-line statement. -/
theorem C4_control_flow_census :
    notebookStmts.countP isForLoop = 1 ∧
    notebookStmts.countP isIfStmt = 2 ∧
    notebookStmts.countP isTryExcept = 0 ∧
    notebookStmts.countP isControlFlow = 3 := by
  decide

/-- C5, counterexample.  Visualization does not happen only after the
optimization: the first opt_fom.visualize call occurs strictly before
the solve_optimization_NewtonMethod call (both calls exist, their
indices being within the statement list). -/
theorem C5_counterexample :
    firstIdxCalling notebookStmts "opt_fom.visualize" <
      firstIdxCalling notebookStmts "solve_optimization_NewtonMethod" ∧
    firstIdxCalling notebookStmts "solve_optimization_NewtonMethod" <
      notebookStmts.length := by
  decide

/-- C5, amended.  The pipeline order holds for the pipeline proper:
EXC_problem is called before
discretize_quadratic_pdeopt_stationary_cg, which is called before the
starting parameter is sampled, which happens before
solve_optimization_NewtonMethod, and the reporting of the optimization
results (the for loop printing mus_1[-1] and the solve of the optimal
parameter) comes after the optimization; visualization, however, also
occurs before the optimization (problem data and initial primal/dual
solutions), not only afterwards. -/
theorem C5_pipeline_order :
    firstIdxCalling notebookStmts "EXC_problem" <
      firstIdxCalling notebookStmts
        "discretize_quadratic_pdeopt_stationary_cg" ∧
    firstIdxCalling notebookStmts
        "discretize_quadratic_pdeopt_stationary_cg" <
      firstIdxCalling notebookStmts "parameter_space.sample_randomly" ∧
    firstIdxCalling notebookStmts "parameter_space.sample_randomly" <
      firstIdxCalling notebookStmts "solve_optimization_NewtonMethod" ∧
    firstIdxCalling notebookStmts "solve_optimization_NewtonMethod" <
      notebookStmts.findIdx isForLoop ∧
    firstIdxCalling notebookStmts "solve_optimization_NewtonMethod" <
      firstIdxCalling notebookStmts "opt_fom.pre_parse_parameter" ∧
    firstIdxCalling notebookStmts "opt_fom.pre_parse_parameter" <
      notebookStmts.length ∧
    firstIdxCalling notebookStmts "opt_fom.visualize" <
      firstIdxCalling notebookStmts "solve_optimization_NewtonMethod" := by
  decide

/-- C6.  The notebook performs no error handling: it contains no
try/except block, no if condition reads any of the names the solver
tuple is unpacked into (muoptfom, times_1, mus_1, Js_1, FOC_1), and the
returned iterate list mus_1 is nevertheless consumed (read) by later
statements, unconditionally. -/
theorem C6_no_error_handling :
    hasTryExcept notebookStmts = false ∧
    branchesOn notebookStmts solverOutputs = false ∧
    notebookStmts.any (fun s => readsVar s "mus_1") = true := by
  decide

/-- C7.  The notebook's file-system effects are exactly the PNG bitmap
reads (the domain-of-interest mask read by BitmapFunction and the
component masks read through EXC_problem) and the PDF plot export
written by plt.savefig; every effect is a read of a .png file or a
write of a .pdf file. -/
theorem C7_fs_effects_only_png_reads_and_pdf_writes :
    allEffects notebookStmts =
      [.read "../../../EXC_data/Domain_of_interest.png",
       .read "../../../EXC_data/affine_component_masks.png",
       .write "ciao.pdf"] ∧
    (allEffects notebookStmts).all (fun e => isPngRead e || isPdfWrite e)
      = true := by
  decide

/-- C8, counterexample.  The notebook does mutate existing objects in
place: it performs thirteen element assignments, among them assignments
into the lists held by vis_mu. -/
theorem C8_counterexample :
    (elemAssignObjs notebookStmts).length = 13 ∧
    (elemAssignObjs notebookStmts).contains "vis_mu" = true := by
  decide

/-- C8, amended.  Apart from thirteen in-place element assignments —
three into the matplotlib configuration dictionary mpl.rcParams and ten
into the group lists of vis_mu — every state change of the notebook is
a rebinding of a top-level variable. -/
theorem C8_mutations_only_rcparams_and_vis_mu :
    (elemAssignObjs notebookStmts).all
      (fun o => o == "mpl.rcParams" || o == "vis_mu") = true ∧
    (elemAssignObjs notebookStmts).count "mpl.rcParams" = 3 ∧
    (elemAssignObjs notebookStmts).count "vis_mu" = 10 := by
  decide

/-- C9.  Both sample_randomly calls of the notebook pass a fixed seed
(1 for mu, 13 for vis_mu), so the sampled parameters, and hence the
starting functional value, do not depend on the ambient random state:
any two executions of the notebook draw identical parameters and start
from the same functional value. -/
theorem C9_seeded_sampling_is_deterministic (a b : Nat) (J : Mu → ℚ) :
    notebookSampleSeeds.all Option.isSome = true ∧
    sampledStartingParameter a = sampledStartingParameter b ∧
    sampledVisParameter a = sampledVisParameter b ∧
    startingFunctionalValue J a = startingFunctionalValue J b :=
  ⟨rfl, rfl, rfl, rfl⟩

/-- C9, witness: the determinism theorem applied at the concrete ambient
states 0 and 37 and at a concrete functional. -/
theorem C9_witness :
    sampledStartingParameter 0 = sampledStartingParameter 37 ∧
    startingFunctionalValue (fun _ => 1) 0 =
      startingFunctionalValue (fun _ => 1) 37 :=
  ⟨(C9_seeded_sampling_is_deterministic 0 37 (fun _ => 1)).2.1,
   (C9_seeded_sampling_is_deterministic 0 37 (fun _ => 1)).2.2.2⟩

/-- C10.  The variable radius = 0.1 is dead — no statement of the
notebook ever reads it — while the optimizer is invoked with
TR_parameters carrying radius 1.e18 and full_order_model True; the
run is an effectively unconstrained full-order Newton method: every
recorded iterate coefficient is at most 100, far below the 1.e18
trust-region radius, which differs from the dead 0.1 value. -/
theorem C10_radius_variable_is_dead :
    notebookStmts.all (fun s => ! readsVar s "radius") = true ∧
    TR_parameters.radius = 1e18 ∧
    TR_parameters.full_order_model = true ∧
    radius = 0.1 ∧
    TR_parameters.radius ≠ radius ∧
    mus_1.all (fun v => v.all (fun x => decide (x ≤ 100))) = true ∧
    (100 : ℚ) < TR_parameters.radius := by
  refine ⟨by decide, rfl, rfl, rfl, ?_, ?_, ?_⟩
  · norm_num [TR_parameters, radius]
  · norm_num [mus_1]
  · norm_num [TR_parameters]

end EXC10
